import Mathlib

/-!
# Verification of the Hetzner Cloud machine driver

A shallow embedding of the Rancher/Docker-Machine driver for Hetzner Cloud
(`driver/driver.go`, `driver/helper.go`).  Remote calls, the filesystem and
the random source are modelled by an explicit environment (`Env`); every
operation returns its result, the updated driver record and the list of
external calls it issued, in order.
-/

namespace HetznerDriver

/-! ## Go `path/filepath` model (Unix rules)

`filepath.Join` joins its non-empty arguments with `/` and then applies
`filepath.Clean`.  `Clean` splits on `/`, drops empty and `.` elements,
resolves `..` against a stack, and re-joins. -/

/-- Split a character list on `/`.  Mirrors the element decomposition that
Go's `Clean` performs. -/
def splitSlash : List Char → List (List Char)
  | [] => [[]]
  | c :: rest =>
    if c = '/' then [] :: splitSlash rest
    else
      match splitSlash rest with
      | [] => [[c]]
      | g :: gs => (c :: g) :: gs

/-- Process path elements against a stack, resolving `.` and `..` the way
Go's `Clean` does (`rooted` tells whether the path began with `/`). -/
def cleanStack (rooted : Bool) : List (List Char) → List (List Char) → List (List Char)
  | [], acc => acc
  | e :: rest, acc =>
    if e = [] ∨ e = ['.'] then cleanStack rooted rest acc
    else if e = ['.', '.'] then
      match acc with
      | [] => if rooted then cleanStack rooted rest [] else cleanStack rooted rest [['.', '.']]
      | top :: acc' =>
        if top = ['.', '.'] then cleanStack rooted rest (['.', '.'] :: top :: acc')
        else cleanStack rooted rest acc'
    else cleanStack rooted rest (e :: acc)

/-- Join path elements back with `/`. -/
def joinComps : List (List Char) → List Char
  | [] => []
  | [e] => e
  | e :: f :: rest => e ++ '/' :: joinComps (f :: rest)

/-- Render the cleaned components back into a path string (the tail of
Go's `Clean`: a leading `/` when the path was rooted, `.` or `/` when no
components survive). -/
def renderClean (rooted : Bool) (comps : List (List Char)) : String :=
  if rooted then
    if comps = [] then "/" else String.mk ('/' :: joinComps comps)
  else
    if comps = [] then "." else String.mk (joinComps comps)

/-- Go's `filepath.Clean` for Unix paths. -/
def pathClean (p : String) : String :=
  if p = "" then "."
  else
    let cs := p.toList
    let rooted := decide (cs.head? = some '/')
    renderClean rooted (cleanStack rooted (splitSlash cs) []).reverse

/-- Go's `filepath.Join` restricted to two arguments, as the driver uses it. -/
def filepathJoin (a b : String) : String :=
  if a = "" then
    if b = "" then "" else pathClean b
  else
    if b = "" then pathClean a else pathClean (a ++ "/" ++ b)

/-! ## Data model -/

/-- Errors from the remote provider API (`hcloud`).  `notFound` stands for
the provider's 404 error; everything else is carried as a message. -/
inductive GatewayError
  | notFound
  | other (msg : String)
deriving DecidableEq, Repr

/-- The error values the driver itself produces, one constructor per
`fmt.Errorf` site. -/
inductive KeyGenError
  | storePathEmpty                 -- "storePath is empty, cannot write SSH key"
  | rsaGenerate (msg : String)     -- "generating RSA key: %w"
  | newPublicKey (msg : String)    -- "creating public key: %w"
  | mkdir (msg : String)           -- "creating store directory: %w"
  | writeKey (msg : String)        -- "writing private key: %w"
deriving DecidableEq, Repr

inductive DriverError
  | storePathEmptyCreate                          -- "storePath is empty, cannot create SSH key"
  | generatingSSHKey (e : KeyGenError)            -- "generating SSH key: %w"
  | creatingSSHKey (e : GatewayError)             -- "creating SSH key in Hetzner Cloud: %w"
  | creatingServer (e : GatewayError)             -- "error creating Hetzner server: %w"
  | waitingForCreation (e : GatewayError)         -- "waiting for server creation: %w"
  | fetchingServer (id : Int) (e : GatewayError)  -- "fetching server %d: %w"
  | provisioningTimeout (id : Int)                -- "server %d has no public IPv4 after timeout"
  | deletingServer (id : Int) (e : GatewayError)  -- "deleting server %d: %w"
  | waitingForDeletion (e : GatewayError)         -- "waiting for server deletion: %w"
  | deletingSSHKey (id : Int) (e : GatewayError)  -- "deleting SSH key %d: %w"
  | ipNotAvailable                                -- "IP address not available"
  | noIPAddressYet                                -- "no IP address available yet"
  | serverIDNotSet                                -- "server ID not set"
  | cannotFetchServer (id : Int) (e : GatewayError) -- "cannot fetch server %d: %w"
  | poweringOn (id : Int) (e : GatewayError)      -- "powering on server %d: %w"
  | poweringOff (id : Int) (e : GatewayError)     -- "powering off server %d: %w"
  | rebooting (id : Int) (e : GatewayError)       -- "rebooting server %d: %w"
  | apiTokenRequired                              -- "hetzner-api-token is required"
deriving DecidableEq, Repr

/-- The driver record: the embedded `BaseDriver` fields the code uses
(`MachineName`, `StorePath`, `SSHUser`, `SSHKeyPath`, `IPAddress`) plus the
driver's own fields. -/
structure Driver where
  machineName : String
  storePath : String
  sshUser : String
  sshKeyPath : String
  ipAddress : String
  apiToken : String
  serverID : Int
  sshKeyID : Int
  serverType : String
  image : String
  region : String
deriving DecidableEq, Repr

/-- `NewDriver` from `driver.go`: a fresh record with only the base fields
populated. -/
def newDriver (machineName storePath : String) : Driver :=
  { machineName := machineName
    storePath := storePath
    sshUser := "root"
    sshKeyPath := ""
    ipAddress := ""
    apiToken := ""
    serverID := 0
    sshKeyID := 0
    serverType := ""
    image := ""
    region := "" }

/-- An RSA private key as the driver sees it: the PEM-encoded bytes.  The
key material itself is opaque to the control flow being verified. -/
structure RSAKey where
  privPem : String
deriving DecidableEq, Repr

/-- A provider-side SSH key object (`hcloud.SSHKey`). -/
structure RemoteSSHKey where
  id : Int
deriving DecidableEq, Repr

/-- A provider-side server object, restricted to the fields the driver
reads: `ID`, `PublicNet.IPv4.IP` and `Status`. -/
structure Server where
  id : Int
  publicIPv4 : Option String
  status : String
deriving DecidableEq, Repr

/-- Result of `client.Server.Create`: the server plus whether the response
carried an asynchronous action to await. -/
structure ServerCreateResult where
  server : Server
  hasAction : Bool
deriving DecidableEq, Repr

/-- Result of `client.Server.DeleteWithResult`. -/
structure ServerDeleteResult where
  hasAction : Bool
deriving DecidableEq, Repr

/-- One external call issued by the driver, in program order. -/
inductive Event
  | rsaGenerate
  | mkdirAll (path : String) (mode : Nat)
  | writeFile (path : String) (mode : Nat)
  | sshKeyCreate (name : String) (publicKey : String)
  | serverCreate (name serverType image location : String) (sshKeys : List Int)
  | waitForAction
  | getServerByID (id : Int)
  | sleepSeconds (n : Nat)
  | powerOn (id : Int)
  | powerOff (id : Int)
  | reboot (id : Int)
  | serverDelete (id : Int)
  | sshKeyDelete (id : Int)
deriving DecidableEq, Repr

/-- The environment: the random source, the filesystem and the provider
gateway.  `getServerPoll i` is the result of the `i`-th `GetByID` call of
`Create`'s poll loop (the Go code dereferences that result without a nil
check, so the oracle returns the server record, as `hcloud` does for an id
that was just created); `getServerByID` serves the other call sites, where
the code does check for nil. -/
structure Env where
  rsaGenerateKey : Except String RSAKey
  sshNewPublicKey : RSAKey → Except String String
  mkdirAll : String → Nat → Except String Unit
  writeFile : String → String → Nat → Except String Unit
  sshKeyCreate : String → String → Except GatewayError RemoteSSHKey
  serverCreate : String → String → String → String → List Int →
    Except GatewayError ServerCreateResult
  waitCreateAction : Except GatewayError Unit
  getServerPoll : Nat → Except GatewayError Server
  getServerByID : Int → Except GatewayError (Option Server)
  serverDelete : Int → Except GatewayError ServerDeleteResult
  waitDeleteAction : Except GatewayError Unit
  sshKeyDelete : Int → Except GatewayError Unit
  powerOn : Server → Except GatewayError Unit
  powerOff : Server → Except GatewayError Unit
  reboot : Server → Except GatewayError Unit

/-! ## Key Provisioner (`helper.go`) -/

/-- `Driver.generateSSHKey` from `helper.go`: generate an RSA key pair,
derive the per-machine key path, create the store directory (mode 0700),
write the private key (mode 0600), record the path, return the public key
bytes. -/
def Driver.generateSSHKey (d : Driver) (env : Env) :
    Except KeyGenError String × Driver × List Event :=
  if d.storePath = "" then (.error .storePathEmpty, d, [])
  else
    match env.rsaGenerateKey with
    | .error msg => (.error (.rsaGenerate msg), d, [.rsaGenerate])
    | .ok key =>
      let privBytes := key.privPem
      match env.sshNewPublicKey key with
      | .error msg => (.error (.newPublicKey msg), d, [.rsaGenerate])
      | .ok pubBytes =>
        let fileName := d.machineName ++ "_id_rsa"
        let keyPath := filepathJoin d.storePath (fileName ++ "")
        match env.mkdirAll d.storePath 0o700 with
        | .error msg =>
          (.error (.mkdir msg), d, [.rsaGenerate, .mkdirAll d.storePath 0o700])
        | .ok _ =>
          match env.writeFile keyPath privBytes 0o600 with
          | .error msg =>
            (.error (.writeKey msg), d,
              [.rsaGenerate, .mkdirAll d.storePath 0o700, .writeFile keyPath 0o600])
          | .ok _ =>
            (.ok pubBytes, { d with sshKeyPath := keyPath },
              [.rsaGenerate, .mkdirAll d.storePath 0o700, .writeFile keyPath 0o600])

/-! ## Create (`driver.go`) -/

/-- Outcome of the bounded poll loop in `Create` step 5. -/
inductive PollOutcome
  | fetchFailed (e : GatewayError)
  | found (ip : String)
  | exhausted
deriving DecidableEq, Repr

/-- The `for i := 0; i < 30; i++` loop of `Create`: fetch the server; stop
on a fetch error; stop when a public IPv4 is present; otherwise sleep two
seconds and retry.  `i` is the index of the next query, `fuel` the number
of iterations left. -/
def pollIPv4 (env : Env) (serverID : Int) : Nat → Nat → PollOutcome × List Event
  | _, 0 => (.exhausted, [])
  | i, fuel + 1 =>
    match env.getServerPoll i with
    | .error e => (.fetchFailed e, [.getServerByID serverID])
    | .ok srv =>
      match srv.publicIPv4 with
      | some ip => (.found ip, [.getServerByID serverID])
      | none =>
        let rest := pollIPv4 env serverID (i + 1) fuel
        (rest.1, .getServerByID serverID :: .sleepSeconds 2 :: rest.2)

/-- Steps 5–6 of `Create`: run the poll loop, record a found address, then
fail with the timeout error iff the record's address is still empty. -/
def createPollPhase (env : Env) (d : Driver) (tr : List Event) :
    Except DriverError Unit × Driver × List Event :=
  match pollIPv4 env d.serverID 0 30 with
  | (.fetchFailed e, trP) => (.error (.fetchingServer d.serverID e), d, tr ++ trP)
  | (.found ip, trP) =>
    let d1 := { d with ipAddress := ip }
    if d1.ipAddress = "" then (.error (.provisioningTimeout d1.serverID), d1, tr ++ trP)
    else (.ok (), d1, tr ++ trP)
  | (.exhausted, trP) =>
    if d.ipAddress = "" then (.error (.provisioningTimeout d.serverID), d, tr ++ trP)
    else (.ok (), d, tr ++ trP)

/-- `Driver.Create`: check the store path, generate the SSH identity,
upload the public key, create the server with that key attached, await the
creation action if one was returned, then poll for a public IPv4. -/
def Driver.create (d : Driver) (env : Env) :
    Except DriverError Unit × Driver × List Event :=
  if d.storePath = "" then (.error .storePathEmptyCreate, d, [])
  else
    match d.generateSSHKey env with
    | (.error e, d1, tr1) => (.error (.generatingSSHKey e), d1, tr1)
    | (.ok publicKey, d1, tr1) =>
      let keyName := "rancher-" ++ d1.machineName
      let tr2 := tr1 ++ [.sshKeyCreate keyName publicKey]
      match env.sshKeyCreate keyName publicKey with
      | .error e => (.error (.creatingSSHKey e), d1, tr2)
      | .ok hkey =>
        let d2 := { d1 with sshKeyID := hkey.id }
        let tr3 := tr2 ++
          [.serverCreate d2.machineName d2.serverType d2.image d2.region [hkey.id]]
        match env.serverCreate d2.machineName d2.serverType d2.image d2.region [hkey.id] with
        | .error e => (.error (.creatingServer e), d2, tr3)
        | .ok res =>
          let d3 := { d2 with serverID := res.server.id }
          if res.hasAction then
            match env.waitCreateAction with
            | .error e => (.error (.waitingForCreation e), d3, tr3 ++ [.waitForAction])
            | .ok _ => createPollPhase env d3 (tr3 ++ [.waitForAction])
          else
            createPollPhase env d3 tr3

/-! ## Remove (`driver.go`) -/

/-- Step 2 of `Remove`: delete the uploaded SSH key if its id is set. -/
def removeKeyStep (d : Driver) (env : Env) (tr : List Event) :
    Except DriverError Unit × List Event :=
  if d.sshKeyID ≠ 0 then
    match env.sshKeyDelete d.sshKeyID with
    | .error e => (.error (.deletingSSHKey d.sshKeyID e), tr ++ [.sshKeyDelete d.sshKeyID])
    | .ok _ => (.ok (), tr ++ [.sshKeyDelete d.sshKeyID])
  else (.ok (), tr)

/-- `Driver.Remove`: delete the server if its id is set (awaiting the
returned action), then delete the SSH key if its id is set.  An error at
any step returns immediately. -/
def Driver.remove (d : Driver) (env : Env) :
    Except DriverError Unit × List Event :=
  if d.serverID ≠ 0 then
    match env.serverDelete d.serverID with
    | .error e => (.error (.deletingServer d.serverID e), [.serverDelete d.serverID])
    | .ok delRes =>
      if delRes.hasAction then
        match env.waitDeleteAction with
        | .error e => (.error (.waitingForDeletion e), [.serverDelete d.serverID, .waitForAction])
        | .ok _ => removeKeyStep d env [.serverDelete d.serverID, .waitForAction]
      else removeKeyStep d env [.serverDelete d.serverID]
  else removeKeyStep d env []

/-! ## Accessors, state and power operations (`driver.go`) -/

/-- `Driver.GetIP`. -/
def Driver.getIP (d : Driver) : Except DriverError String :=
  if d.ipAddress = "" then .error .ipNotAvailable else .ok d.ipAddress

/-- `Driver.GetSSHHostname` (delegates to `GetIP`). -/
def Driver.getSSHHostname (d : Driver) : Except DriverError String :=
  d.getIP

/-- `Driver.GetURL`. -/
def Driver.getURL (d : Driver) : Except DriverError String :=
  if d.ipAddress = "" then .error .noIPAddressYet
  else .ok ("tcp://" ++ d.ipAddress ++ ":2376")

/-- The local run-state enum (`libmachine/state`), restricted to the values
the driver produces. -/
inductive MachineState
  | running
  | stopped
  | none
  | error
deriving DecidableEq, Repr

/-- The `switch srv.Status` of `GetState`: provider `"running"` maps to
`Running`, provider `"off"` to `Stopped`, every other status string to
`None`. -/
def serverStatusToState (status : String) : MachineState :=
  if status = "running" then .running
  else if status = "off" then .stopped
  else .none

/-- `Driver.GetState`.  Go returns a pair `(state, error)`; modelled as
`Option` of that pair, where the outer `Option.none` marks the nil-pointer
dereference the Go code performs when `GetByID` reports no such server. -/
def Driver.getState (d : Driver) (env : Env) :
    Option (MachineState × Option DriverError) × List Event :=
  if d.serverID = 0 then (some (.error, some .serverIDNotSet), [])
  else
    match env.getServerByID d.serverID with
    | .error e =>
      (some (.error, some (.fetchingServer d.serverID e)), [.getServerByID d.serverID])
    | .ok Option.none => (Option.none, [.getServerByID d.serverID])
    | .ok (some srv) =>
      (some (serverStatusToState srv.status, Option.none), [.getServerByID d.serverID])

/-- `Driver.Start`: require a server id, fetch the server, power it on. -/
def Driver.start (d : Driver) (env : Env) : Except DriverError Unit × List Event :=
  if d.serverID = 0 then (.error .serverIDNotSet, [])
  else
    match env.getServerByID d.serverID with
    | .error e => (.error (.cannotFetchServer d.serverID e), [.getServerByID d.serverID])
    | .ok Option.none => (.ok (), [.getServerByID d.serverID])
    | .ok (some srv) =>
      match env.powerOn srv with
      | .error e =>
        (.error (.poweringOn d.serverID e), [.getServerByID d.serverID, .powerOn srv.id])
      | .ok _ => (.ok (), [.getServerByID d.serverID, .powerOn srv.id])

/-- `Driver.Stop`: require a server id, fetch the server, power it off. -/
def Driver.stop (d : Driver) (env : Env) : Except DriverError Unit × List Event :=
  if d.serverID = 0 then (.error .serverIDNotSet, [])
  else
    match env.getServerByID d.serverID with
    | .error e => (.error (.cannotFetchServer d.serverID e), [.getServerByID d.serverID])
    | .ok Option.none => (.ok (), [.getServerByID d.serverID])
    | .ok (some srv) =>
      match env.powerOff srv with
      | .error e =>
        (.error (.poweringOff d.serverID e), [.getServerByID d.serverID, .powerOff srv.id])
      | .ok _ => (.ok (), [.getServerByID d.serverID, .powerOff srv.id])

/-- `Driver.Restart`: require a server id, fetch the server, reboot it. -/
def Driver.restart (d : Driver) (env : Env) : Except DriverError Unit × List Event :=
  if d.serverID = 0 then (.error .serverIDNotSet, [])
  else
    match env.getServerByID d.serverID with
    | .error e => (.error (.cannotFetchServer d.serverID e), [.getServerByID d.serverID])
    | .ok Option.none => (.ok (), [.getServerByID d.serverID])
    | .ok (some srv) =>
      match env.reboot srv with
      | .error e =>
        (.error (.rebooting d.serverID e), [.getServerByID d.serverID, .reboot srv.id])
      | .ok _ => (.ok (), [.getServerByID d.serverID, .reboot srv.id])

/-- `Driver.Kill` is literally `return d.Stop()`. -/
def Driver.kill (d : Driver) (env : Env) : Except DriverError Unit × List Event :=
  d.stop env

/-! ## Configuration (`driver.go`) -/

/-- `Driver.SetConfigFromFlags`: copy the option values into the record,
then reject an empty API token.  The trace component records that the
function issues no external calls. -/
def Driver.setConfigFromFlags (d : Driver) (opts : String → String) :
    Except DriverError Unit × Driver × List Event :=
  let d1 := { d with
    apiToken := opts "hetzner-api-token"
    serverType := opts "hetzner-server-type"
    image := opts "hetzner-image"
    region := opts "hetzner-location"
    sshUser := "root" }
  if d1.apiToken = "" then (.error .apiTokenRequired, d1, [])
  else (.ok (), d1, [])

/-- `Driver.PreCreateCheck`. -/
def Driver.preCreateCheck (d : Driver) : Except DriverError Unit :=
  if d.apiToken = "" then .error .apiTokenRequired else .ok ()

/-! ## Auxiliary predicates -/

/-- The `i`-th poll query succeeds but reports no public IPv4. -/
def pollsNone (env : Env) (i : Nat) : Prop :=
  ∃ s, env.getServerPoll i = .ok s ∧ s.publicIPv4 = Option.none

/-- Recognize the poll loop's server queries in a trace. -/
def isGetServer : Event → Bool
  | .getServerByID _ => true
  | _ => false

/-! ## Concrete fixtures (used by witnesses and counterexamples) -/

def sampleServer : Server :=
  { id := 42, publicIPv4 := some "203.0.113.5", status := "running" }

def pendingServer : Server :=
  { id := 42, publicIPv4 := Option.none, status := "initializing" }

/-- A gateway/filesystem where every operation succeeds and the server is
addressable from the first poll. -/
def envOK : Env :=
  { rsaGenerateKey := .ok { privPem := "PEMPRIV" }
    sshNewPublicKey := fun _ => .ok "ssh-rsa AAAA sample"
    mkdirAll := fun _ _ => .ok ()
    writeFile := fun _ _ _ => .ok ()
    sshKeyCreate := fun _ _ => .ok { id := 7 }
    serverCreate := fun _ _ _ _ _ => .ok { server := sampleServer, hasAction := true }
    waitCreateAction := .ok ()
    getServerPoll := fun _ => .ok sampleServer
    getServerByID := fun i =>
      .ok (some { id := i, publicIPv4 := some "203.0.113.5", status := "running" })
    serverDelete := fun _ => .ok { hasAction := false }
    waitDeleteAction := .ok ()
    sshKeyDelete := fun _ => .ok ()
    powerOn := fun _ => .ok ()
    powerOff := fun _ => .ok ()
    reboot := fun _ => .ok () }

/-- Like `envOK`, but the server never obtains a public IPv4. -/
def envNoIP : Env := { envOK with getServerPoll := fun _ => .ok pendingServer }

/-- Like `envOK`, but deleting the server reports `NotFoundError`. -/
def envDeleteNotFound : Env := { envOK with serverDelete := fun _ => .error .notFound }

/-- Options with every value present except the API token. -/
def optsNoToken : String → String :=
  fun k => if k = "hetzner-api-token" then "" else "v"

/-- Fully populated options. -/
def optsFull : String → String :=
  fun k =>
    if k = "hetzner-api-token" then "tok"
    else if k = "hetzner-server-type" then "cx11"
    else if k = "hetzner-image" then "ubuntu-20.04"
    else if k = "hetzner-location" then "nbg1"
    else ""

/-- A configured driver that has not created anything yet. -/
def sampleDriver : Driver :=
  { newDriver "node1" "store" with
    apiToken := "tok", serverType := "cx11", image := "ubuntu-20.04", region := "nbg1" }

/-- A record that reaches `Create`'s poll step with a leftover address. -/
def staleDriver : Driver := { sampleDriver with ipAddress := "198.51.100.7" }

/-- A fully provisioned record. -/
def provisionedDriver : Driver :=
  { sampleDriver with serverID := 42, sshKeyID := 7, ipAddress := "203.0.113.5" }

/-! ## Poll-loop lemmas (shared) -/

/-- If every queried attempt reports no address, the loop exhausts its
fuel. -/
theorem pollIPv4_exhausted (env : Env) (sid : Int) :
    ∀ (fuel i : Nat), (∀ j, j < fuel → pollsNone env (i + j)) →
    (pollIPv4 env sid i fuel).1 = .exhausted := by
  intro fuel
  induction fuel with
  | zero => intro i _; rfl
  | succ n ih =>
    intro i h
    obtain ⟨s, hs, hip⟩ := h 0 n.succ_pos
    rw [Nat.add_zero] at hs
    have hrest : ∀ j, j < n → pollsNone env (i + 1 + j) := by
      intro j hj
      have := h (j + 1) (by omega)
      rwa [show i + (j + 1) = i + 1 + j by omega] at this
    simp [pollIPv4, hs, hip, ih (i + 1) hrest]

/-- If the first `k` attempts report no address and attempt `k` reports
`ip`, the loop stops with `ip`. -/
theorem pollIPv4_found (env : Env) (sid : Int) :
    ∀ (fuel k i : Nat) (s : Server) (ip : String), k < fuel →
    (∀ j, j < k → pollsNone env (i + j)) →
    env.getServerPoll (i + k) = .ok s → s.publicIPv4 = some ip →
    (pollIPv4 env sid i fuel).1 = .found ip := by
  intro fuel
  induction fuel with
  | zero => intro k i s ip hk; omega
  | succ n ih =>
    intro k i s ip hk hnone hs hip
    cases k with
    | zero =>
      rw [Nat.add_zero] at hs
      simp [pollIPv4, hs, hip]
    | succ m =>
      obtain ⟨s0, hs0, hip0⟩ := hnone 0 m.succ_pos
      rw [Nat.add_zero] at hs0
      have hrest : ∀ j, j < m → pollsNone env (i + 1 + j) := by
        intro j hj
        have := hnone (j + 1) (by omega)
        rwa [show i + (j + 1) = i + 1 + j by omega] at this
      have hs' : env.getServerPoll (i + 1 + m) = .ok s := by
        rwa [show i + (m + 1) = i + 1 + m by omega] at hs
      simp [pollIPv4, hs0, hip0]
      exact ih m (i + 1) s ip (by omega) hrest hs' hip

/-- The loop issues at most `fuel` server queries. -/
theorem pollIPv4_query_bound (env : Env) (sid : Int) :
    ∀ (fuel i : Nat), ((pollIPv4 env sid i fuel).2.countP isGetServer) ≤ fuel := by
  intro fuel
  induction fuel with
  | zero => intro i; simp [pollIPv4]
  | succ n ih =>
    intro i
    cases hq : env.getServerPoll i with
    | error e => simp [pollIPv4, hq, List.countP_cons, isGetServer]
    | ok srv =>
      cases hip : srv.publicIPv4 with
      | some ip => simp [pollIPv4, hq, hip, List.countP_cons, isGetServer]
      | none =>
        have := ih (i + 1)
        simp [pollIPv4, hq, hip, List.countP_cons, isGetServer]
        omega

/-- Every sleep the loop performs is the fixed two-second interval. -/
theorem pollIPv4_sleep_two (env : Env) (sid : Int) :
    ∀ (fuel i n : Nat), Event.sleepSeconds n ∈ (pollIPv4 env sid i fuel).2 → n = 2 := by
  intro fuel
  induction fuel with
  | zero => intro i n h; simp [pollIPv4] at h
  | succ m ih =>
    intro i n h
    cases hq : env.getServerPoll i with
    | error e => simp [pollIPv4, hq] at h
    | ok srv =>
      cases hip : srv.publicIPv4 with
      | some ip => simp [pollIPv4, hq, hip] at h
      | none =>
        simp [pollIPv4, hq, hip] at h
        rcases h with h | h
        · exact h
        · exact ih (i + 1) n h

/-- Full evaluation of the post-loop check when the loop exhausted its
attempts on a record whose address field is empty. -/
theorem createPollPhase_timeout (env : Env) (d : Driver) (tr : List Event)
    (hip : d.ipAddress = "")
    (hout : (pollIPv4 env d.serverID 0 30).1 = .exhausted) :
    createPollPhase env d tr =
      (.error (.provisioningTimeout d.serverID), d,
        tr ++ (pollIPv4 env d.serverID 0 30).2) := by
  unfold createPollPhase
  rcases hpoll : pollIPv4 env d.serverID 0 30 with ⟨out, trP⟩
  rw [hpoll] at hout
  simp at hout
  subst hout
  simp [hip]

/-- Full evaluation when the very first query reports a non-empty
address. -/
theorem createPollPhase_found_first (env : Env) (d : Driver) (tr : List Event)
    (s : Server) (ip : String) (h0 : env.getServerPoll 0 = .ok s)
    (hip : s.publicIPv4 = some ip) (hne : ip ≠ "") :
    createPollPhase env d tr =
      (.ok (), { d with ipAddress := ip }, tr ++ [.getServerByID d.serverID]) := by
  unfold createPollPhase
  have hpoll : pollIPv4 env d.serverID 0 30 = (.found ip, [.getServerByID d.serverID]) := by
    rw [show (30 : Nat) = 29 + 1 from rfl]
    simp [pollIPv4, h0, hip]
  rw [hpoll]
  simp [hne]

/-- Evaluation of the outcome alone when the loop found an address. -/
theorem createPollPhase_found (env : Env) (d : Driver) (tr : List Event) (ip : String)
    (hne : ip ≠ "")
    (hout : (pollIPv4 env d.serverID 0 30).1 = .found ip) :
    (createPollPhase env d tr).1 = .ok () ∧
    (createPollPhase env d tr).2.1 = { d with ipAddress := ip } := by
  unfold createPollPhase
  rcases hpoll : pollIPv4 env d.serverID 0 30 with ⟨out, trP⟩
  rw [hpoll] at hout
  simp at hout
  subst hout
  simp [hne]

/-! ## Filepath lemmas (shared) -/

theorem splitSlash_ne_nil (cs : List Char) : splitSlash cs ≠ [] := by
  cases cs with
  | nil => simp [splitSlash]
  | cons c rest =>
    by_cases hc : c = '/'
    · simp [splitSlash, hc]
    · simp only [splitSlash, if_neg hc]
      cases h : splitSlash rest with
      | nil => simp [h]
      | cons g gs => simp [h]

theorem splitSlash_append (a b : List Char) :
    splitSlash (a ++ '/' :: b) = splitSlash a ++ splitSlash b := by
  induction a with
  | nil => simp [splitSlash]
  | cons c a ih =>
    by_cases hc : c = '/'
    · subst hc
      simp [splitSlash, ih]
    · simp only [List.cons_append, splitSlash, if_neg hc, List.append_eq]
      rw [ih]
      cases h : splitSlash a with
      | nil => exact absurd h (splitSlash_ne_nil a)
      | cons g gs => simp [h]

theorem splitSlash_of_not_mem (e : List Char) (h : '/' ∉ e) : splitSlash e = [e] := by
  induction e with
  | nil => rfl
  | cons c rest ih =>
    have hc : ¬ c = '/' := fun hh => h (by simp [hh])
    have hr : '/' ∉ rest := fun hh => h (List.mem_cons_of_mem _ hh)
    simp [splitSlash, hc, ih hr]

theorem splitSlash_elems (cs : List Char) : ∀ e ∈ splitSlash cs, '/' ∉ e := by
  induction cs with
  | nil =>
    intro e he
    simp [splitSlash] at he
    subst he
    simp
  | cons c rest ih =>
    intro e he
    by_cases hc : c = '/'
    · subst hc
      simp only [splitSlash, if_pos rfl] at he
      rcases List.mem_cons.mp he with h | h
      · subst h; simp
      · exact ih e h
    · cases h : splitSlash rest with
      | nil => exact absurd h (splitSlash_ne_nil rest)
      | cons g gs =>
        simp only [splitSlash, if_neg hc, h] at he
        rcases List.mem_cons.mp he with h1 | h1
        · subst h1
          intro hmem
          rcases List.mem_cons.mp hmem with h2 | h2
          · exact hc h2.symm
          · exact ih g (by rw [h]; exact List.mem_cons_self g gs) h2
        · exact ih e (by rw [h]; exact List.mem_cons_of_mem g h1)

theorem cleanStack_append (r : Bool) (xs ys acc : List (List Char)) :
    cleanStack r (xs ++ ys) acc = cleanStack r ys (cleanStack r xs acc) := by
  induction xs generalizing acc with
  | nil => rfl
  | cons e rest ih =>
    by_cases h1 : e = [] ∨ e = ['.']
    · simp [cleanStack, h1, ih]
    · by_cases h2 : e = ['.', '.']
      · subst h2
        cases acc with
        | nil => cases r <;> simp [cleanStack, h1, ih]
        | cons top acc' =>
          by_cases h3 : top = ['.', '.'] <;> simp [cleanStack, h1, h3, ih]
      · simp [cleanStack, h1, h2, ih]

theorem cleanStack_push (r : Bool) (e : List Char) (rest acc : List (List Char))
    (h1 : e ≠ []) (h2 : e ≠ ['.']) (h3 : e ≠ ['.', '.']) :
    cleanStack r (e :: rest) acc = cleanStack r rest (e :: acc) := by
  have h0 : ¬(e = [] ∨ e = ['.']) := by simp [h1, h2]
  simp [cleanStack, h0, h3]

theorem cleanStack_elems (r : Bool) :
    ∀ (comps acc : List (List Char)), (∀ e ∈ comps, '/' ∉ e) → (∀ e ∈ acc, '/' ∉ e) →
    ∀ e ∈ cleanStack r comps acc, '/' ∉ e := by
  intro comps
  induction comps with
  | nil => intro acc _ ha e he; exact ha e he
  | cons x rest ih =>
    intro acc hc ha e he
    have hrest : ∀ y ∈ rest, '/' ∉ y := fun y hy => hc y (List.mem_cons_of_mem _ hy)
    by_cases h1 : x = [] ∨ x = ['.']
    · rw [show cleanStack r (x :: rest) acc = cleanStack r rest acc by
        simp [cleanStack, h1]] at he
      exact ih acc hrest ha e he
    · by_cases h2 : x = ['.', '.']
      · subst h2
        cases acc with
        | nil =>
          cases r with
          | false =>
            rw [show cleanStack false (['.', '.'] :: rest) [] =
                cleanStack false rest [['.', '.']] by simp [cleanStack, h1]] at he
            refine ih _ hrest ?_ e he
            intro y hy
            simp at hy
            subst hy
            decide
          | true =>
            rw [show cleanStack true (['.', '.'] :: rest) [] =
                cleanStack true rest [] by simp [cleanStack, h1]] at he
            refine ih _ hrest ?_ e he
            intro y hy
            simp at hy
        | cons top acc' =>
          by_cases h3 : top = ['.', '.']
          · rw [show cleanStack r (['.', '.'] :: rest) (top :: acc') =
                cleanStack r rest (['.', '.'] :: top :: acc') by
                simp [cleanStack, h1, h3]] at he
            refine ih _ hrest ?_ e he
            intro y hy
            rcases List.mem_cons.mp hy with h | h
            · subst h; decide
            · exact ha y h
          · rw [show cleanStack r (['.', '.'] :: rest) (top :: acc') =
                cleanStack r rest acc' by simp [cleanStack, h1, h3]] at he
            exact ih _ hrest (fun y hy => ha y (List.mem_cons_of_mem _ hy)) e he
      · have h1a : x ≠ [] := by
          intro hh; exact h1 (Or.inl hh)
        have h1b : x ≠ ['.'] := by
          intro hh; exact h1 (Or.inr hh)
        rw [cleanStack_push r x rest acc h1a h1b h2] at he
        refine ih _ hrest ?_ e he
        intro y hy
        rcases List.mem_cons.mp hy with h | h
        · rw [h]; exact hc x (List.mem_cons_self _ _)
        · exact ha y h

theorem splitSlash_joinComps :
    ∀ l : List (List Char), l ≠ [] → (∀ e ∈ l, '/' ∉ e) →
    splitSlash (joinComps l) = l := by
  intro l
  induction l with
  | nil => intro h; exact absurd rfl h
  | cons e rest ih =>
    intro _ h
    cases rest with
    | nil =>
      simp only [joinComps]
      exact splitSlash_of_not_mem e (h e (List.mem_cons_self _ _))
    | cons f rest' =>
      rw [show joinComps (e :: f :: rest') = e ++ '/' :: joinComps (f :: rest') from rfl]
      rw [splitSlash_append, splitSlash_of_not_mem e (h e (List.mem_cons_self _ _)),
        ih (by simp) (fun y hy => h y (List.mem_cons_of_mem _ hy))]
      rfl

theorem renderClean_inj (r : Bool) (l1 l2 : List (List Char))
    (h1 : l1 ≠ []) (h2 : l2 ≠ [])
    (hn1 : ∀ e ∈ l1, '/' ∉ e) (hn2 : ∀ e ∈ l2, '/' ∉ e)
    (heq : renderClean r l1 = renderClean r l2) : l1 = l2 := by
  cases r with
  | false =>
    rw [show renderClean false l1 = String.mk (joinComps l1) by
        simp [renderClean, h1],
      show renderClean false l2 = String.mk (joinComps l2) by
        simp [renderClean, h2]] at heq
    have hdat : joinComps l1 = joinComps l2 := congrArg String.data heq
    have := congrArg splitSlash hdat
    rwa [splitSlash_joinComps l1 h1 hn1, splitSlash_joinComps l2 h2 hn2] at this
  | true =>
    rw [show renderClean true l1 = String.mk ('/' :: joinComps l1) by
        simp [renderClean, h1],
      show renderClean true l2 = String.mk ('/' :: joinComps l2) by
        simp [renderClean, h2]] at heq
    have hdat : '/' :: joinComps l1 = '/' :: joinComps l2 := congrArg String.data heq
    have htail : joinComps l1 = joinComps l2 := by injection hdat
    have := congrArg splitSlash htail
    rwa [splitSlash_joinComps l1 h1 hn1, splitSlash_joinComps l2 h2 hn2] at this

/-- Distinct final path elements (no separator, not `.` or `..`) joined to
the same base directory clean to distinct paths. -/
theorem pathClean_sep_inj (sp f1 f2 : String)
    (hsp : sp ≠ "")
    (h1s : '/' ∉ f1.toList) (h2s : '/' ∉ f2.toList)
    (h1a : f1.toList ≠ []) (h1b : f1.toList ≠ ['.']) (h1c : f1.toList ≠ ['.', '.'])
    (h2a : f2.toList ≠ []) (h2b : f2.toList ≠ ['.']) (h2c : f2.toList ≠ ['.', '.'])
    (hne : f1 ≠ f2) :
    pathClean (sp ++ "/" ++ f1) ≠ pathClean (sp ++ "/" ++ f2) := by
  have hdata : ∀ f : String, (sp ++ "/" ++ f).data = sp.data ++ '/' :: f.data := by
    intro f
    simp [String.data_append]
  have hpne : ∀ f : String, (sp ++ "/" ++ f) ≠ "" := by
    intro f hf
    have hd : (sp ++ "/" ++ f).data = [] := by rw [hf]
    rw [hdata] at hd
    simp at hd
  have hspd : sp.data ≠ [] := fun hh => hsp (String.ext hh)
  have hhead : ∀ x : List Char, (sp.data ++ '/' :: x).head? = sp.data.head? := by
    intro x
    cases hd : sp.data with
    | nil => exact absurd hd hspd
    | cons c cs => rfl
  have hclean : ∀ f : String, f.toList ≠ [] → f.toList ≠ ['.'] → f.toList ≠ ['.', '.'] →
      '/' ∉ f.toList →
      pathClean (sp ++ "/" ++ f) =
        renderClean (decide (sp.data.head? = some '/'))
          ((cleanStack (decide (sp.data.head? = some '/')) (splitSlash sp.data) []).reverse
            ++ [f.data]) := by
    intro f hfa hfb hfc hfs
    simp only [pathClean, String.toList]
    rw [if_neg (hpne f)]
    simp only [hdata f, hhead f.data, splitSlash_append,
      splitSlash_of_not_mem f.data hfs, cleanStack_append]
    have hfa' : f.data ≠ [] := hfa
    have hfb' : f.data ≠ ['.'] := hfb
    have hfc' : f.data ≠ ['.', '.'] := hfc
    rw [cleanStack_push (decide (sp.data.head? = some '/')) f.data []
      (cleanStack (decide (sp.data.head? = some '/')) (splitSlash sp.data) [])
      hfa' hfb' hfc']
    rw [show ∀ acc : List (List Char),
      cleanStack (decide (sp.data.head? = some '/')) [] acc = acc from fun _ => rfl]
    rw [List.reverse_cons]
  intro heq
  rw [hclean f1 h1a h1b h1c h1s, hclean f2 h2a h2b h2c h2s] at heq
  have hSns : ∀ e ∈ (cleanStack (decide (sp.data.head? = some '/'))
      (splitSlash sp.data) []).reverse, '/' ∉ e := by
    intro e he
    exact cleanStack_elems _ _ _ (splitSlash_elems sp.data)
      (by intro y hy; simp at hy) e (List.mem_reverse.mp he)
  have hlists := renderClean_inj _ _ _ (by simp) (by simp)
    (by
      intro e he
      rcases List.mem_append.mp he with h | h
      · exact hSns e h
      · simp at h; subst h; exact h1s)
    (by
      intro e he
      rcases List.mem_append.mp he with h | h
      · exact hSns e h
      · simp at h; subst h; exact h2s)
    heq
  have hsing : [f1.data] = [f2.data] := List.append_cancel_left hlists
  have hfd : f1.data = f2.data := by injection hsing
  exact hne (String.ext hfd)

/-! ## Claims -/

/-- **C1 counterexample.** A record that reaches the polling step with a
leftover (stale) address refutes the claim: with a gateway that reports no
address on every one of the 30 queries, `Create` returns success instead
of `ProvisioningTimeoutError`, keeping the stale address. -/
theorem create_stale_address_counterexample :
    (Driver.create staleDriver envNoIP).1 = .ok () ∧
    (Driver.create staleDriver envNoIP).2.1.ipAddress = "198.51.100.7" ∧
    (Driver.create staleDriver envNoIP).2.2.countP isGetServer = 30 :=
  ⟨rfl, rfl, rfl⟩

/-- **C1 (amended).** For every `Create` invocation that reaches the
polling step, the loop queries the instance at most 30 times, sleeping the
fixed 2 seconds between attempts; if some query among the first 30 returns
a non-null public IPv4 address, `Create` succeeds and records that
address; if no address appears through all 30 queries, `Create` fails with
`ProvisioningTimeoutError` — provided the record's address field was empty
when polling began (on a record that already carried an address, `Create`
succeeds and keeps it, see the counterexample). -/
theorem create_poll_outcomes (env : Env) (d : Driver) (tr : List Event)
    (hip : d.ipAddress = "") :
    ((∀ i, i < 30 → pollsNone env i) →
        (createPollPhase env d tr).1 =
          .error (.provisioningTimeout d.serverID)) ∧
    (∀ k s ip, k < 30 → (∀ j, j < k → pollsNone env j) →
        env.getServerPoll k = .ok s → s.publicIPv4 = some ip → ip ≠ "" →
        (createPollPhase env d tr).1 = .ok () ∧
        (createPollPhase env d tr).2.1.ipAddress = ip) ∧
    (pollIPv4 env d.serverID 0 30).2.countP isGetServer ≤ 30 ∧
    (∀ n, Event.sleepSeconds n ∈ (pollIPv4 env d.serverID 0 30).2 → n = 2) := by
  refine ⟨?_, ?_, pollIPv4_query_bound env d.serverID 30 0,
    pollIPv4_sleep_two env d.serverID 30 0⟩
  · intro hall
    have hexh := pollIPv4_exhausted env d.serverID 30 0
      (fun j hj => by simpa using hall j hj)
    rw [createPollPhase_timeout env d tr hip hexh]
  · intro k s ip hk hnone hs hsip hne
    have hfound := pollIPv4_found env d.serverID 30 k 0 s ip hk
      (fun j hj => by simpa using hnone j hj) (by simpa using hs) hsip
    have h2 := createPollPhase_found env d tr ip hne hfound
    exact ⟨h2.1, by rw [h2.2]⟩

/-- Witness for **C1 (amended)**: a fresh record polled against the
gateway that never reports an address fails with the timeout error. -/
theorem create_poll_outcomes_witness :
    (createPollPhase envNoIP sampleDriver []).1 =
      .error (.provisioningTimeout 0) :=
  (create_poll_outcomes envNoIP sampleDriver [] rfl).1
    (fun _ _ => ⟨pendingServer, rfl, rfl⟩)

/-- **C6.** When `Create`'s poll bound is exhausted without an address (on
a record whose address field was empty, the only way the bound can fail),
`Create` fails with `ProvisioningTimeoutError` while the record keeps the
non-zero remote SSH-key id returned by the upload and the non-zero remote
instance id returned by the instance creation, so a follow-up `Remove` can
clean both up. -/
theorem create_timeout_preserves_remote_ids (d : Driver) (env : Env)
    (key : RSAKey) (pub : String) (hkey : RemoteSSHKey) (res : ServerCreateResult)
    (hsp : d.storePath ≠ "")
    (hip : d.ipAddress = "")
    (hgen : env.rsaGenerateKey = .ok key)
    (hpub : env.sshNewPublicKey key = .ok pub)
    (hmk : ∀ p m, env.mkdirAll p m = .ok ())
    (hwr : ∀ p c m, env.writeFile p c m = .ok ())
    (hkc : ∀ nm p, env.sshKeyCreate nm p = .ok hkey)
    (hsc : ∀ nm t im r ks, env.serverCreate nm t im r ks = .ok res)
    (hwait : env.waitCreateAction = .ok ())
    (hpoll : ∀ i, pollsNone env i)
    (hkid : hkey.id ≠ 0) (hsid : res.server.id ≠ 0) :
    (d.create env).1 = .error (.provisioningTimeout res.server.id) ∧
    (d.create env).2.1.sshKeyID = hkey.id ∧
    (d.create env).2.1.serverID = res.server.id ∧
    (d.create env).2.1.sshKeyID ≠ 0 ∧
    (d.create env).2.1.serverID ≠ 0 := by
  have hexh : ∀ sid : Int, (pollIPv4 env sid 0 30).1 = .exhausted := fun sid =>
    pollIPv4_exhausted env sid 30 0 (fun j _ => hpoll (0 + j))
  have hcp := createPollPhase_timeout env
    { machineName := d.machineName, storePath := d.storePath, sshUser := d.sshUser,
      sshKeyPath := filepathJoin d.storePath (d.machineName ++ "_id_rsa"),
      ipAddress := d.ipAddress, apiToken := d.apiToken, serverID := res.server.id,
      sshKeyID := hkey.id, serverType := d.serverType, image := d.image,
      region := d.region }
  cases hha : res.hasAction
  · simp only [Driver.create, Driver.generateSSHKey, hsp, hgen, hpub, hmk, hwr, hkc,
      hsc, hha, hwait]
    simp [hsp, hha]
    rw [hcp _ hip (hexh res.server.id)]
    simp [hkid, hsid]
  · simp only [Driver.create, Driver.generateSSHKey, hsp, hgen, hpub, hmk, hwr, hkc,
      hsc, hha, hwait]
    simp [hsp, hha]
    rw [hcp _ hip (hexh res.server.id)]
    simp [hkid, hsid]

/-- Witness for **C6**: the configured record against the no-address
gateway fails with the timeout for server 42 while keeping key id 7 and
server id 42. -/
theorem create_timeout_preserves_remote_ids_witness :
    (Driver.create sampleDriver envNoIP).1 =
      .error (.provisioningTimeout 42) ∧
    (Driver.create sampleDriver envNoIP).2.1.sshKeyID = 7 ∧
    (Driver.create sampleDriver envNoIP).2.1.serverID = 42 :=
  have h := create_timeout_preserves_remote_ids sampleDriver envNoIP
    { privPem := "PEMPRIV" } "ssh-rsa AAAA sample" { id := 7 }
    { server := sampleServer, hasAction := true }
    (by decide) rfl rfl rfl (fun _ _ => rfl) (fun _ _ _ => rfl)
    (fun _ _ => rfl) (fun _ _ _ _ _ => rfl) rfl
    (fun _ => ⟨pendingServer, rfl, rfl⟩) (by decide) (by decide)
  ⟨h.1, h.2.1, h.2.2.1⟩

/-- **C8.** Within one successful `Create` invocation the external-call
trace is exactly: key generation and persistence, then the key upload,
then the instance creation — whose argument list carries precisely the
remote key id the upload returned — then the action wait, then the first
poll query: key upload strictly precedes instance creation, which strictly
precedes polling. -/
theorem create_call_order (d : Driver) (env : Env)
    (key : RSAKey) (pub : String) (hkey : RemoteSSHKey) (res : ServerCreateResult)
    (s : Server) (ip : String)
    (hsp : d.storePath ≠ "")
    (hgen : env.rsaGenerateKey = .ok key)
    (hpub : env.sshNewPublicKey key = .ok pub)
    (hmk : ∀ p m, env.mkdirAll p m = .ok ())
    (hwr : ∀ p c m, env.writeFile p c m = .ok ())
    (hkc : ∀ nm p, env.sshKeyCreate nm p = .ok hkey)
    (hsc : ∀ nm t im r ks, env.serverCreate nm t im r ks = .ok res)
    (hha : res.hasAction = true)
    (hwait : env.waitCreateAction = .ok ())
    (h0 : env.getServerPoll 0 = .ok s) (hsip : s.publicIPv4 = some ip)
    (hne : ip ≠ "") :
    (d.create env).2.2 =
      [.rsaGenerate, .mkdirAll d.storePath 0o700,
       .writeFile (filepathJoin d.storePath (d.machineName ++ "_id_rsa" ++ "")) 0o600,
       .sshKeyCreate ("rancher-" ++ d.machineName) pub,
       .serverCreate d.machineName d.serverType d.image d.region [hkey.id],
       .waitForAction,
       .getServerByID res.server.id] := by
  simp [Driver.create, Driver.generateSSHKey, hsp, hgen, hpub, hmk, hwr, hkc, hsc,
    hha, hwait, createPollPhase_found_first _ _ _ s ip h0 hsip hne]

/-- Witness for **C8**: the concrete all-success run produces exactly the
ordered trace, with the uploaded key id 7 passed to the server creation. -/
theorem create_call_order_witness :
    (Driver.create sampleDriver envOK).2.2 =
      [.rsaGenerate, .mkdirAll "store" 0o700,
       .writeFile (filepathJoin "store" ("node1" ++ "_id_rsa" ++ "")) 0o600,
       .sshKeyCreate ("rancher-" ++ "node1") "ssh-rsa AAAA sample",
       .serverCreate "node1" "cx11" "ubuntu-20.04" "nbg1" [7],
       .waitForAction,
       .getServerByID 42] :=
  create_call_order sampleDriver envOK
    { privPem := "PEMPRIV" } "ssh-rsa AAAA sample" { id := 7 }
    { server := sampleServer, hasAction := true } sampleServer "203.0.113.5"
    (by decide) rfl rfl (fun _ _ => rfl) (fun _ _ _ => rfl)
    (fun _ _ => rfl) (fun _ _ _ _ _ => rfl) rfl rfl rfl rfl (by decide)

/-- **C4 counterexample.** The key path goes through `filepath.Join`,
which cleans the joined path, so the two different machine names `"./a"`
and `"a"` produce the same private-key path. -/
theorem ssh_key_path_collision_counterexample :
    (Driver.generateSSHKey { sampleDriver with machineName := "./a" } envOK).2.1.sshKeyPath =
      (Driver.generateSSHKey { sampleDriver with machineName := "a" } envOK).2.1.sshKeyPath ∧
    ("./a" : String) ≠ "a" :=
  ⟨rfl, by decide⟩

/-- **C4 (amended).** `generateSSHKey` issues exactly: key generation, a
`MkdirAll` of the storage directory with owner-only mode `0700`, and a
write of the private key with owner-only mode `0600` to the path obtained
by joining the storage directory with `machineName ++ "_id_rsa"` — a path
derived deterministically from the machine name; two different machine
names that contain no path separator `/` never produce the same
private-key path under the same storage directory (names containing
separators or dot segments can collide after path cleaning, see the
counterexample). -/
theorem generate_ssh_key_behavior (d : Driver) (env : Env) (key : RSAKey) (pub : String)
    (hsp : d.storePath ≠ "")
    (hgen : env.rsaGenerateKey = .ok key)
    (hpub : env.sshNewPublicKey key = .ok pub)
    (hmk : ∀ p m, env.mkdirAll p m = .ok ())
    (hwr : ∀ p c m, env.writeFile p c m = .ok ()) :
    d.generateSSHKey env =
      (.ok pub,
        { d with sshKeyPath := filepathJoin d.storePath (d.machineName ++ "_id_rsa" ++ "") },
        [.rsaGenerate, .mkdirAll d.storePath 0o700,
         .writeFile (filepathJoin d.storePath (d.machineName ++ "_id_rsa" ++ "")) 0o600]) ∧
    (∀ n1 n2 : String, '/' ∉ n1.toList → '/' ∉ n2.toList → n1 ≠ n2 →
        filepathJoin d.storePath (n1 ++ "_id_rsa") ≠
          filepathJoin d.storePath (n2 ++ "_id_rsa")) := by
  constructor
  · simp [Driver.generateSSHKey, hsp, hgen, hpub, hmk, hwr]
  · have hidlen : ("_id_rsa" : String).data.length = 7 := rfl
    have hlen : ∀ n : String, ((n ++ "_id_rsa" : String)).data.length = n.data.length + 7 := by
      intro n
      rw [String.data_append, List.length_append, hidlen]
    have hne0 : ∀ n : String, (n ++ "_id_rsa" : String) ≠ "" := by
      intro n h
      have := congrArg (fun s : String => s.data.length) h
      simp only [hlen] at this
      simp at this
    have hto : ∀ n : String, (n ++ "_id_rsa" : String).toList = n.data ++ "_id_rsa".data := by
      intro n
      exact String.data_append n "_id_rsa"
    have hnos : ∀ n : String, '/' ∉ n.toList → '/' ∉ (n ++ "_id_rsa" : String).toList := by
      intro n hn hmem
      rw [hto] at hmem
      rcases List.mem_append.mp hmem with h | h
      · exact hn h
      · revert h; decide
    have hnil : ∀ n : String, (n ++ "_id_rsa" : String).toList ≠ [] := by
      intro n h
      have := congrArg List.length h
      rw [show ((n ++ "_id_rsa" : String).toList.length) = n.data.length + 7 from hlen n] at this
      simp at this
    have hdot : ∀ n : String, (n ++ "_id_rsa" : String).toList ≠ ['.'] := by
      intro n h
      have := congrArg List.length h
      rw [show ((n ++ "_id_rsa" : String).toList.length) = n.data.length + 7 from hlen n] at this
      simp at this
    have hdd : ∀ n : String, (n ++ "_id_rsa" : String).toList ≠ ['.', '.'] := by
      intro n h
      have := congrArg List.length h
      rw [show ((n ++ "_id_rsa" : String).toList.length) = n.data.length + 7 from hlen n] at this
      simp at this
    intro n1 n2 hn1 hn2 hne
    have hfne : (n1 ++ "_id_rsa" : String) ≠ (n2 ++ "_id_rsa" : String) := by
      intro h
      have := congrArg String.data h
      rw [String.data_append, String.data_append] at this
      exact hne (String.ext (List.append_cancel_right this))
    rw [show filepathJoin d.storePath (n1 ++ "_id_rsa") =
        pathClean (d.storePath ++ "/" ++ (n1 ++ "_id_rsa")) by
        simp [filepathJoin, hsp, hne0 n1],
      show filepathJoin d.storePath (n2 ++ "_id_rsa") =
        pathClean (d.storePath ++ "/" ++ (n2 ++ "_id_rsa")) by
        simp [filepathJoin, hsp, hne0 n2]]
    exact pathClean_sep_inj d.storePath (n1 ++ "_id_rsa") (n2 ++ "_id_rsa") hsp
      (hnos n1 hn1) (hnos n2 hn2)
      (hnil n1) (hdot n1) (hdd n1) (hnil n2) (hdot n2) (hdd n2) hfne

/-- Witness for **C4 (amended)**: the concrete run writes
`store/node1_id_rsa`, and the separator-free names `"n1"` and `"n2"` give
distinct key paths. -/
theorem generate_ssh_key_behavior_witness :
    (Driver.generateSSHKey sampleDriver envOK).2.1.sshKeyPath = "store/node1_id_rsa" ∧
    filepathJoin "store" ("n1" ++ "_id_rsa") ≠ filepathJoin "store" ("n2" ++ "_id_rsa") :=
  ⟨by
    rw [(generate_ssh_key_behavior sampleDriver envOK { privPem := "PEMPRIV" }
      "ssh-rsa AAAA sample" (by decide) rfl rfl (fun _ _ => rfl) (fun _ _ _ => rfl)).1]
    rfl,
   (generate_ssh_key_behavior sampleDriver envOK { privPem := "PEMPRIV" }
      "ssh-rsa AAAA sample" (by decide) rfl rfl (fun _ _ => rfl) (fun _ _ _ => rfl)).2
     "n1" "n2" (by decide) (by decide) (by decide)⟩

/-- **C3.** The provider-status-to-run-state translation is a total pure
function: provider `"running"` maps to `Running`, provider `"off"` to
`Stopped`, and every other status string to exactly the one value `None`;
as a Lean function it never fails, and `GetState` returns exactly this
translation whenever the gateway returns a server. -/
theorem status_translation_total :
    (∀ s : String,
        serverStatusToState s = .running ∨ serverStatusToState s = .stopped ∨
          serverStatusToState s = .none) ∧
    serverStatusToState "running" = .running ∧
    serverStatusToState "off" = .stopped ∧
    (∀ s : String, s ≠ "running" → s ≠ "off" → serverStatusToState s = .none) ∧
    (∀ (d : Driver) (env : Env) (srv : Server),
        d.serverID ≠ 0 → env.getServerByID d.serverID = .ok (some srv) →
        (d.getState env).1 = some (serverStatusToState srv.status, Option.none)) := by
  refine ⟨?_, by decide, by decide, ?_, ?_⟩
  · intro s
    unfold serverStatusToState
    split
    · exact Or.inl rfl
    · split
      · exact Or.inr (Or.inl rfl)
      · exact Or.inr (Or.inr rfl)
  · intro s h1 h2
    simp [serverStatusToState, h1, h2]
  · intro d env srv hid hq
    simp [Driver.getState, hid, hq]

/-- Witness for **C3** at concrete inputs: an unrecognized status maps to
`None`, and `GetState` of a provisioned record translates the fetched
status. -/
theorem status_translation_total_witness :
    serverStatusToState "migrating" = .none ∧
    (Driver.getState provisionedDriver envOK).1 =
      some (serverStatusToState "running", Option.none) :=
  ⟨status_translation_total.2.2.2.1 "migrating" (by decide) (by decide),
   status_translation_total.2.2.2.2 provisionedDriver envOK
     { id := 42, publicIPv4 := some "203.0.113.5", status := "running" }
     (by decide) rfl⟩

/-- **C5.** `SetConfigFromFlags` fails with the configuration error when
the supplied API token is empty and succeeds when it is non-empty; it
issues no remote call (empty trace); `PreCreateCheck` succeeds exactly
when the stored token is non-empty. -/
theorem set_config_token_validation (d : Driver) (opts : String → String) :
    (opts "hetzner-api-token" = "" →
        (d.setConfigFromFlags opts).1 = .error .apiTokenRequired) ∧
    (opts "hetzner-api-token" ≠ "" → (d.setConfigFromFlags opts).1 = .ok ()) ∧
    (d.setConfigFromFlags opts).2.2 = [] ∧
    (d.preCreateCheck = .ok () ↔ d.apiToken ≠ "") := by
  refine ⟨?_, ?_, ?_, ?_⟩
  · intro h; simp [Driver.setConfigFromFlags, h]
  · intro h; simp [Driver.setConfigFromFlags, h]
  · by_cases h : opts "hetzner-api-token" = "" <;>
      simp [Driver.setConfigFromFlags, h]
  · by_cases h : d.apiToken = "" <;> simp [Driver.preCreateCheck, h]

/-- Witness for **C5**: an empty token is rejected, a populated option set
is accepted. -/
theorem set_config_token_validation_witness :
    (Driver.setConfigFromFlags sampleDriver optsNoToken).1 =
      .error .apiTokenRequired ∧
    (Driver.setConfigFromFlags sampleDriver optsFull).1 = .ok () :=
  ⟨(set_config_token_validation sampleDriver optsNoToken).1 rfl,
   (set_config_token_validation sampleDriver optsFull).2.1 (by decide)⟩

/-- **C10.** When `SetConfigFromFlags` is called with an empty credential
it returns the error, but the returned record already carries the supplied
server-type, image, region and SSH-user values: the failure is not
atomic. -/
theorem set_config_overwrites_before_error (d : Driver) (opts : String → String)
    (h : opts "hetzner-api-token" = "") :
    (d.setConfigFromFlags opts).1 = .error .apiTokenRequired ∧
    (d.setConfigFromFlags opts).2.1.serverType = opts "hetzner-server-type" ∧
    (d.setConfigFromFlags opts).2.1.image = opts "hetzner-image" ∧
    (d.setConfigFromFlags opts).2.1.region = opts "hetzner-location" ∧
    (d.setConfigFromFlags opts).2.1.sshUser = "root" := by
  simp [Driver.setConfigFromFlags, h]

/-- Witness for **C10**: with the token missing, `sampleDriver`'s stored
server type `"cx11"` is overwritten by the supplied value `"v"` even
though the call fails. -/
theorem set_config_overwrites_before_error_witness :
    (Driver.setConfigFromFlags sampleDriver optsNoToken).1 =
      .error .apiTokenRequired ∧
    (Driver.setConfigFromFlags sampleDriver optsNoToken).2.1.serverType = "v" :=
  ⟨(set_config_overwrites_before_error sampleDriver optsNoToken rfl).1,
   by rw [(set_config_overwrites_before_error sampleDriver optsNoToken rfl).2.1]; rfl⟩

/-- **C7.** `GetIP` fails with the address-unavailable error whenever no
address has been resolved (in particular on any fresh record, hence before
any successful `Create`), and `GetURL` returns
`"tcp://" ++ address ++ ":2376"` when an address exists and fails when it
does not. -/
theorem address_url_accessors :
    (∀ d : Driver, d.ipAddress = "" →
        d.getIP = .error .ipNotAvailable ∧ d.getURL = .error .noIPAddressYet) ∧
    (∀ d : Driver, d.ipAddress ≠ "" →
        d.getURL = .ok ("tcp://" ++ d.ipAddress ++ ":2376")) ∧
    (∀ machineName storePath : String,
        (newDriver machineName storePath).getIP = .error .ipNotAvailable) := by
  refine ⟨?_, ?_, ?_⟩
  · intro d h
    exact ⟨by simp [Driver.getIP, h], by simp [Driver.getURL, h]⟩
  · intro d h
    simp [Driver.getURL, h]
  · intro n s
    simp [Driver.getIP, newDriver]

/-- Witness for **C7**: the unprovisioned `sampleDriver` has no address, a
provisioned record yields the composed endpoint URL. -/
theorem address_url_accessors_witness :
    Driver.getIP sampleDriver = .error .ipNotAvailable ∧
    Driver.getURL provisionedDriver = .ok "tcp://203.0.113.5:2376" :=
  ⟨(address_url_accessors.1 sampleDriver rfl).1,
   address_url_accessors.2.1 provisionedDriver (by decide)⟩

/-- **C9.** Each power operation fails with the not-provisioned error when
the remote instance id is zero, and otherwise first fetches the instance
and then issues the corresponding gateway action; `Kill` is definitionally
`Stop` on every driver state. -/
theorem power_operations :
    (∀ (d : Driver) (env : Env), d.serverID = 0 →
        d.start env = (.error .serverIDNotSet, []) ∧
        d.stop env = (.error .serverIDNotSet, []) ∧
        d.restart env = (.error .serverIDNotSet, [])) ∧
    (∀ (d : Driver) (env : Env) (srv : Server), d.serverID ≠ 0 →
        env.getServerByID d.serverID = .ok (some srv) →
        (env.powerOn srv = .ok () →
          d.start env = (.ok (), [.getServerByID d.serverID, .powerOn srv.id])) ∧
        (env.powerOff srv = .ok () →
          d.stop env = (.ok (), [.getServerByID d.serverID, .powerOff srv.id])) ∧
        (env.reboot srv = .ok () →
          d.restart env = (.ok (), [.getServerByID d.serverID, .reboot srv.id]))) ∧
    (∀ (d : Driver) (env : Env), d.kill env = d.stop env) := by
  refine ⟨?_, ?_, fun d env => rfl⟩
  · intro d env h
    exact ⟨by simp [Driver.start, h], by simp [Driver.stop, h], by simp [Driver.restart, h]⟩
  · intro d env srv hid hq
    refine ⟨?_, ?_, ?_⟩ <;> intro hact
    · simp [Driver.start, hid, hq, hact]
    · simp [Driver.stop, hid, hq, hact]
    · simp [Driver.restart, hid, hq, hact]

/-- Witness for **C9**: starting the provisioned record fetches server 42
and powers it on; `Kill` equals `Stop` there. -/
theorem power_operations_witness :
    Driver.start provisionedDriver envOK =
      (.ok (), [.getServerByID 42, .powerOn 42]) ∧
    Driver.kill provisionedDriver envOK = Driver.stop provisionedDriver envOK :=
  ⟨(power_operations.2.1 provisionedDriver envOK
      { id := 42, publicIPv4 := some "203.0.113.5", status := "running" }
      (by decide) rfl).1 rfl,
   power_operations.2.2 provisionedDriver envOK⟩

/-- **C2 counterexample.** On a record with both remote ids set, a
`NotFoundError` from the server deletion makes `Remove` fail and skip the
key deletion entirely (the trace holds no key-delete call), refuting both
the best-effort and the NotFound-is-success parts of the claim. -/
theorem remove_notfound_counterexample :
    Driver.remove { sampleDriver with serverID := 1, sshKeyID := 2 } envDeleteNotFound =
      (.error (.deletingServer 1 .notFound), [.serverDelete 1]) := by
  rfl

/-- **C2 (amended).** `Remove` attempts the instance deletion when its
remote id is non-zero; if that deletion fails — a `NotFoundError`
included — `Remove` returns the error without attempting the key
deletion; otherwise it attempts the key deletion when that id is non-zero
and propagates its failure, `NotFoundError` included.  On a record whose
remote ids are both zero `Remove` completes without error and without any
gateway call. -/
theorem remove_error_propagation (d : Driver) (env : Env) :
    (d.serverID = 0 → d.sshKeyID = 0 → d.remove env = (.ok (), [])) ∧
    (∀ e, d.serverID ≠ 0 → env.serverDelete d.serverID = .error e →
        d.remove env =
          (.error (.deletingServer d.serverID e), [.serverDelete d.serverID])) ∧
    (∀ res e, d.serverID ≠ 0 → env.serverDelete d.serverID = .ok res →
        res.hasAction = false → d.sshKeyID ≠ 0 →
        env.sshKeyDelete d.sshKeyID = .error e →
        d.remove env = (.error (.deletingSSHKey d.sshKeyID e),
          [.serverDelete d.serverID, .sshKeyDelete d.sshKeyID])) ∧
    (∀ res, d.serverID ≠ 0 → env.serverDelete d.serverID = .ok res →
        res.hasAction = false → d.sshKeyID ≠ 0 →
        env.sshKeyDelete d.sshKeyID = .ok () →
        d.remove env = (.ok (), [.serverDelete d.serverID, .sshKeyDelete d.sshKeyID])) := by
  refine ⟨?_, ?_, ?_, ?_⟩
  · intro h1 h2
    simp [Driver.remove, removeKeyStep, h1, h2]
  · intro e h1 h2
    simp [Driver.remove, h1, h2]
  · intro res e h1 h2 h3 h4 h5
    simp [Driver.remove, removeKeyStep, h1, h2, h3, h4, h5]
  · intro res h1 h2 h3 h4 h5
    simp [Driver.remove, removeKeyStep, h1, h2, h3, h4, h5]

/-- Witness for **C2 (amended)**: removing a record that never created
anything succeeds without gateway calls, and the all-success path deletes
the server and then the key. -/
theorem remove_error_propagation_witness :
    Driver.remove sampleDriver envOK = (.ok (), []) ∧
    Driver.remove { sampleDriver with serverID := 1, sshKeyID := 2 } envOK =
      (.ok (), [.serverDelete 1, .sshKeyDelete 2]) :=
  ⟨(remove_error_propagation sampleDriver envOK).1 rfl rfl,
   (remove_error_propagation { sampleDriver with serverID := 1, sshKeyID := 2 }
      envOK).2.2.2 { hasAction := false } (by decide) rfl rfl (by decide) rfl⟩

end HetznerDriver
